import Mathlib

/-!
Verification development for the `scimodeldev` statistics engine
(`src/scimodeldev/stats.py`, class `SciModelStats`).

The embedding works over exact rationals `ℚ`.  Real-analytic primitives that
the Python code takes from its numeric libraries (`erf`, `erfinv`, square
roots, the t/chi-square/F probability density functions, `Normal(0,1).icdf`)
are irrational-valued, so they enter the embedding as explicit function or
scalar parameters of the definitions that use them; every claim is stated
uniformly in those parameters (adding exactly the mathematical facts about
them that the claim needs, e.g. `erf (erfinv y) = y`).  Everything the Python
code computes by field arithmetic, comparisons, sorting, branching and
summation is modelled exactly.

IEEE results of a division by zero (`inf`/`NaN`) are modelled by `Option ℚ`
with `none` for the non-finite outcome; comparisons against `none` are
`false`, matching IEEE comparisons on `NaN`.  A Python `raise` is modelled by
`Except.error`; routines that compute (and print) a value before a later
`raise` return that value in a separate component so that evaluation order
is observable.
-/

namespace SciModelStats

/-- Division as executed elementwise by `torch.div`: a zero denominator
produces a non-finite IEEE value, modelled as `none`. -/
def qdiv0 (a b : ℚ) : Option ℚ :=
  if b = 0 then none else some (a / b)

/-- Embedding of `SciModelStats.mean` (stats.py line 52): `torch.sum(data) / data.shape[0]`. -/
def mean (data : List ℚ) : ℚ :=
  data.sum / data.length

/-- The variance computed inside `SciModelStats.std` (stats.py lines 94-99):
`sum((x - mean)^2) / (n - ddof)`.  `std` itself is the (irrational) square
root of this value; theorems about `std` carry the root as a parameter `sd`
constrained by `sd * sd = variance data ddof`.  `torch.std(-, unbiased=True)`
used by `F_test` squares back to `variance data 1` in exact arithmetic. -/
def variance (data : List ℚ) (ddof : ℕ) : ℚ :=
  (data.map (fun x => (x - mean data) ^ 2)).sum / ((data.length : ℚ) - ddof)

/-- Embedding of `SciModelStats.median` (stats.py lines 55-87).  `sorted_data` is the
ascending sort; the odd case takes the middle element, the even case
dispatches on the `interpolation` string exactly as the source does, with
`raise ValueError` modelled by `none`.  All indices taken in the even branch
(`left_val-1 = n/2-1`, `right_val-1 = n/2`) and in the odd branch
(`(n+1)/2-1`) are in range for non-empty data, so `List.getD _ _ 0` agrees
with the Python indexing; the empty list (where Python indexing raises) is
mapped to `none` up front. -/
def median (data : List ℚ) (interpolation : String) : Option ℚ :=
  let sorted := List.insertionSort (· ≤ ·) data
  let n := data.length
  if n = 0 then none
  else if n % 2 = 1 then some (sorted.getD ((n + 1) / 2 - 1) 0)
  else if interpolation = "lower" then some (sorted.getD (n / 2 - 1) 0)
  else if interpolation = "higher" then some (sorted.getD (n / 2 + 1 - 1) 0)
  else if interpolation = "midpoint" then
    some ((sorted.getD (n / 2 + 1 - 1) 0 + sorted.getD (n / 2 - 1) 0) / 2)
  else if interpolation = "linear" then
    some (sorted.getD (n / 2 - 1) 0 +
      ((((n / 2 - 1 : ℕ) : ℚ) + ((n / 2 + 1 - 1 : ℕ) : ℚ)) / 2 - ((n / 2 - 1 : ℕ) : ℚ)) *
        ((sorted.getD (n / 2 + 1 - 1) 0 - sorted.getD (n / 2 - 1) 0) /
          (((n / 2 + 1 - 1 : ℕ) : ℚ) - ((n / 2 - 1 : ℕ) : ℚ))))
  else none

/-- Embedding of `SciModelStats.z_score` (stats.py lines 137-138):
`torch.div(data - mean(data), std(data))`, elementwise.  `sd` stands for the
irrational `std(data)` (with `ddof = 0`); a zero `sd` makes every entry
non-finite (`none`). -/
def z_score (sd : ℚ) (data : List ℚ) : List (Option ℚ) :=
  data.map (fun x => qdiv0 (x - mean data) sd)

/-- What a caller of `z_score` observes: the source has no `raise` path, so
the result is always `Except.ok`. -/
def z_score_run (sd : ℚ) (data : List ℚ) : Except String (List (Option ℚ)) :=
  .ok (z_score sd data)

/-- Embedding of `SciModelStats.modified_z_score` (stats.py lines 140-143):
`med = median(data)`, `mad = median(|data - med|)`,
result `0.6745 * torch.div(data - med, mad)` elementwise.  `none` at the
outer level models the index error `median` raises on empty input. -/
def modified_z_score (data : List ℚ) : Option (List (Option ℚ)) :=
  match median data ("linear") with
  | none => none
  | some med =>
    match median (data.map (fun x => |x - med|)) ("linear") with
    | none => none
    | some mad =>
      some (data.map (fun x => (qdiv0 (x - med) mad).map (fun r => (6745 / 10000) * r)))

/-- What a caller of `modified_z_score` observes: the only failure path is
the indexing error on empty data; for non-empty data the call returns
normally whatever non-finite values the division produced. -/
def modified_z_score_run (data : List ℚ) : Except String (List (Option ℚ)) :=
  match modified_z_score data with
  | none => .error ("IndexError")
  | some l => .ok l

/-- IEEE-style `<` against a possibly non-finite left operand: comparisons
with `NaN` are false. -/
def ltOpt (a : Option ℚ) (b : ℚ) : Bool :=
  match a with
  | none => false
  | some x => decide (x < b)

/-- IEEE-style `>` against a possibly non-finite left operand. -/
def gtOpt (a : Option ℚ) (b : ℚ) : Bool :=
  match a with
  | none => false
  | some x => decide (x > b)

/-- The outlier mask computed by `SciModelStats.outliers_from_z`
(stats.py lines 168-179): `is_outlier = (z < -threshold) or (z > threshold)`
elementwise on the z-scores. -/
def outliers_from_z (sd threshold : ℚ) (data : List ℚ) : List Bool :=
  (z_score sd data).map (fun z => ltOpt z (-threshold) || gtOpt z threshold)

/-- The outlier mask computed by `SciModelStats.outliers_from_modified_z`
(stats.py lines 182-193): `is_outlier = mod_z > upper_bound` only; the
computed `lower_bound = -threshold` is never used. -/
def outliers_from_modified_z (threshold : ℚ) (data : List ℚ) : Option (List Bool) :=
  (modified_z_score data).map (fun l => l.map (fun m => gtOpt m threshold))

/-- Embedding of `SciModelStats.cdf` (stats.py lines 195-197):
`0.5 * (1 + erf((z - mu) / (sigma * sqrt(2))))`.  `erf` and the value of
`torch.sqrt(2)` (here `sqrt2`) are irrational primitives passed as
parameters. -/
def cdf (erf : ℚ → ℚ) (sqrt2 z mu sigma : ℚ) : ℚ :=
  (1 / 2) * (1 + erf ((z - mu) / (sigma * sqrt2)))

/-- Embedding of `SciModelStats.ppf` (stats.py lines 286-292):
`mu + sigma * sqrt(2) * erfinv(2*p - 1)`, with `erfinv` and `sqrt2` as
parameters (the same `sqrt2` value the source obtains from
`torch.sqrt(torch.tensor(2.0))` in both `cdf` and `ppf`). -/
def ppf (erfinv : ℚ → ℚ) (sqrt2 p mu sigma : ℚ) : ℚ :=
  mu + sigma * sqrt2 * erfinv (2 * p - 1)

/-- The absolute differences `diffs = |prob_values - given_prob|` computed by
`SciModelStats.z_score_lookup` (stats.py line 269). -/
def lookup_diffs (prob_values : List ℚ) (given_prob : ℚ) : List ℚ :=
  prob_values.map (fun p => |p - given_prob|)

/-- Python `max` over the (non-negative) difference list; `foldl max 0`
agrees with it because every entry is an absolute value. -/
def maxQ (l : List ℚ) : ℚ :=
  l.foldl max 0

/-- The branch condition `max(diffs) == 0` at stats.py line 271 of
`SciModelStats.z_score_lookup`: `true` exactly when the short-circuit
(no-interpolation) branch is taken. -/
def z_score_lookup_exact_branch (prob_values : List ℚ) (given_prob : ℚ) : Bool :=
  decide (maxQ (lookup_diffs prob_values given_prob) = 0)

/-- Grid point `i` of `torch.linspace(lo, hi, n) + shift`:
`lo + shift + (hi - lo) * i / (n - 1)`.  For `n = 1` torch returns `[lo]`,
which the `(n:ℚ) - 1 = 0` division-by-zero convention reproduces. -/
def gridPoint (lo hi shift : ℚ) (n i : ℕ) : ℚ :=
  lo + shift + (hi - lo) * i / ((n : ℚ) - 1)

/-- Embedding of `torch.trapz(f(x), x)` over the grid `x = torch.linspace(lo, hi, n) + shift`:
the trapezoidal sum `Σ (f(x_i) + f(x_{i+1}))/2 * (x_{i+1} - x_i)`. -/
def trapzGrid (f : ℚ → ℚ) (lo hi shift : ℚ) (n : ℕ) : ℚ :=
  ∑ i in Finset.range (n - 1),
    ((f (gridPoint lo hi shift n i) + f (gridPoint lo hi shift n (i + 1))) / 2) *
      (gridPoint lo hi shift n (i + 1) - gridPoint lo hi shift n i)

/-- Embedding of `SciModelStats.t_cdf` (stats.py lines 352-365): trapezoidal integral of
the t density `t_pdf` (irrational, passed as the parameter `f`) over
`torch.linspace(-13000, t_value, num_points)`. -/
def t_cdf (f : ℚ → ℚ) (t_value : ℚ) (num_points : ℕ) : ℚ :=
  trapzGrid f (-13000) t_value 0 num_points

/-- Embedding of `SciModelStats.chi_cdf` (stats.py lines 443-459): trapezoidal integral of
`exp(chi_log_pdf)` (irrational, passed as `f`) over
`torch.linspace(0.3e-6, x, 40000000) + 1e-10`. -/
def chi_cdf (f : ℚ → ℚ) (x : ℚ) : ℚ :=
  trapzGrid f (3 / 10000000) x (1 / 10000000000) 40000000

/-- Embedding of `SciModelStats.F_cdf` (stats.py lines 685-689): trapezoidal integral of
`F_pdf` (irrational, passed as `f`) over `torch.linspace(0, F, n+1) + 1e-7`. -/
def F_cdf (f : ℚ → ℚ) (F : ℚ) (n : ℕ) : ℚ :=
  trapzGrid f 0 F (1 / 10000000) (n + 1)

/-- The `raise ValueError` message every test routine uses for an unknown
`test_type`. -/
def errTestType : String :=
  "test_type must be \"lower-tail\", \"upper-tail\", or \"two-tail\""

/-- Embedding of `SciModelStats.z_test` (stats.py lines 294-330).  `lookup` is
`self.z_score_lookup`; `sqrt_n` is the irrational `torch.sqrt(n)`.  The
first component is the z statistic, computed (and printed) unconditionally
before the `test_type` dispatch; the second is what the caller receives:
`(z_score, z_critical)` on a recognised `test_type`, the `ValueError`
otherwise. -/
def z_test (lookup : ℚ → ℚ) (x_bar mu sigma sqrt_n alpha : ℚ) (test_type : String) :
    Option ℚ × Except String (ℚ × ℚ) :=
  let z := (x_bar - mu) / (sigma / sqrt_n)
  (some z,
    if test_type = "lower-tail" then .ok (z, lookup (1 - alpha))
    else if test_type = "upper-tail" then .ok (z, lookup alpha)
    else if test_type = "two-tail" then .ok (z, lookup (1 - alpha / 2))
    else .error errTestType)

/-- Embedding of `SciModelStats.one_proportion` (stats.py lines 392-431).  `sqrt_term`
stands for the irrational `torch.sqrt(p0*(1-p0)/n)`; the `test_type`
dispatch for the critical value is identical to `z_test`. -/
def one_proportion (lookup : ℚ → ℚ) (p p0 sqrt_term alpha : ℚ) (test_type : String) :
    Option ℚ × Except String (ℚ × ℚ) :=
  let z := (p - p0) / sqrt_term
  (some z,
    if test_type = "lower-tail" then .ok (z, lookup (1 - alpha))
    else if test_type = "upper-tail" then .ok (z, lookup alpha)
    else if test_type = "two-tail" then .ok (z, lookup (1 - alpha / 2))
    else .error errTestType)

/-- Embedding of `SciModelStats.two_sample_z_test` (stats.py lines 491-541).  `icdf` is
`torch.distributions.Normal(0,1).icdf`; `se_term` is the irrational
`torch.sqrt(sigma1^2/n1 + sigma2^2/n2)`.  Note the lower-tail critical value
is `-icdf(1 - alpha)`, unlike `z_test`. -/
def two_sample_z_test (icdf : ℚ → ℚ) (x1_bar x2_bar se_term alpha : ℚ) (test_type : String) :
    Option ℚ × Except String (ℚ × ℚ) :=
  let z := (x1_bar - x2_bar) / se_term
  (some z,
    if test_type = "lower-tail" then .ok (z, -(icdf (1 - alpha)))
    else if test_type = "upper-tail" then .ok (z, icdf (1 - alpha))
    else if test_type = "two-tail" then .ok (z, icdf (1 - alpha / 2))
    else .error errTestType)

/-- Embedding of `SciModelStats.t_test` (stats.py lines 367-390).  `tcdf` is
`self.t_cdf(·, df)` (irrational); `sqrt_n` is `torch.sqrt(n)`.  The t
statistic is computed before the dispatch; the result pairs it with the
p-value. -/
def t_test (tcdf : ℚ → ℚ → ℚ) (x_bar mu s sqrt_n n alpha : ℚ) (test_type : String) :
    Option ℚ × Except String (ℚ × ℚ) :=
  let df := n - 1
  let t_value := (x_bar - mu) / (s / sqrt_n)
  (some t_value,
    if test_type = "lower-tail" then .ok (t_value, tcdf t_value df)
    else if test_type = "upper-tail" then .ok (t_value, 1 - tcdf t_value df)
    else if test_type = "two-tail" then .ok (t_value, 2 * (1 - tcdf |t_value| df))
    else .error errTestType)

/-- Embedding of `SciModelStats.chi_square_test` (stats.py lines 461-489).  `chicdf` is
`self.chi_cdf` (irrational); `chi_value = (n-1) * s^2 / sigma^2` is computed
before the dispatch. -/
def chi_square_test (chicdf : ℚ → ℚ → ℚ) (s sigma n alpha : ℚ) (test_type : String) :
    Option ℚ × Except String (ℚ × ℚ) :=
  let k := n - 1
  let chi_value := k * s ^ 2 / sigma ^ 2
  (some chi_value,
    if test_type = "lower-tail" then .ok (chi_value, chicdf chi_value k)
    else if test_type = "upper-tail" then .ok (chi_value, 1 - chicdf chi_value k)
    else if test_type = "two-tail" then
      .ok (chi_value, 2 * min (chicdf chi_value k) (1 - chicdf chi_value k))
    else .error errTestType)

/-- The orientation step of `SciModelStats.F_test` (stats.py lines 707-713):
`if std1^2 > std2^2` the statistic is `var1/var2` with degrees of freedom
`(d1, d2)`, otherwise `var2/var1` with the degrees of freedom swapped. -/
def F_orient (v1 v2 : ℚ) (d1 d2 : ℕ) : ℚ × ℕ × ℕ :=
  if v1 > v2 then (v1 / v2, d1, d2) else (v2 / v1, d2, d1)

/-- Embedding of `SciModelStats.F_test` (stats.py lines 691-733).  `torch.std(-, unbiased)`
squared is `variance sample 1` in exact arithmetic; `fcdf` is `self.F_cdf`
(irrational).  The oriented statistic is computed before the `test_type`
dispatch. -/
def F_test (fcdf : ℚ → ℕ → ℕ → ℚ) (sample_1 sample_2 : List ℚ) (alpha : ℚ)
    (test_type : String) : Option ℚ × Except String (ℚ × ℚ) :=
  let r := F_orient (variance sample_1 1) (variance sample_2 1)
    (sample_1.length - 1) (sample_2.length - 1)
  let f := r.1
  (some f,
    if test_type = "lower-tail" then .ok (f, fcdf f r.2.1 r.2.2)
    else if test_type = "upper-tail" then .ok (f, 1 - fcdf f r.2.1 r.2.2)
    else if test_type = "two-tail" then
      .ok (f, 2 * min (fcdf f r.2.1 r.2.2) (1 - fcdf f r.2.1 r.2.2))
    else .error errTestType)

/-- A continuous, non-negative probability density (triangular on `[0,2]`,
peak 1 at 1, total mass 1), used as a test density for the fixed-resolution
trapezoidal integrator. -/
def tent (x : ℚ) : ℚ :=
  if x ≤ 1 then max 0 x else max 0 (2 - x)

end SciModelStats

namespace SciModelStats

/-- Helper: every in-range `getD` of a constant list is that constant. -/
theorem getD_all_eq {c : ℚ} : ∀ (l : List ℚ) (i : ℕ), i < l.length →
    (∀ x ∈ l, x = c) → l.getD i 0 = c := by
  intro l
  induction l with
  | nil => intro i hi _; simp at hi
  | cons a t ih =>
    intro i hi h
    cases i with
    | zero => simpa using h a (by simp)
    | succ j =>
      simp only [List.getD_cons_succ]
      exact ih j (by simpa using hi) (fun x hx => h x (by simp [hx]))

/-- Helper: evaluation of `median` on odd-length data (any interpolation). -/
theorem median_odd (data : List ℚ) (interpolation : String)
    (h1 : data.length % 2 = 1) :
    median data interpolation =
      some ((List.insertionSort (· ≤ ·) data).getD ((data.length + 1) / 2 - 1) 0) := by
  have h0 : data.length ≠ 0 := by omega
  simp [median, h0, h1]

/-- Helper: evaluation of `median` on even-length data, `linear` branch. -/
theorem median_even_linear (data : List ℚ) (h0 : data.length ≠ 0)
    (he : data.length % 2 = 0) :
    median data ("linear") =
      some ((List.insertionSort (· ≤ ·) data).getD (data.length / 2 - 1) 0 +
        ((((data.length / 2 - 1 : ℕ) : ℚ) + ((data.length / 2 + 1 - 1 : ℕ) : ℚ)) / 2 -
            ((data.length / 2 - 1 : ℕ) : ℚ)) *
          (((List.insertionSort (· ≤ ·) data).getD (data.length / 2 + 1 - 1) 0 -
              (List.insertionSort (· ≤ ·) data).getD (data.length / 2 - 1) 0) /
            (((data.length / 2 + 1 - 1 : ℕ) : ℚ) - ((data.length / 2 - 1 : ℕ) : ℚ)))) := by
  have h1 : ¬ data.length % 2 = 1 := by omega
  simp +decide [median, h0, h1]

/-- Helper: evaluation of `median` on even-length data, `midpoint` branch. -/
theorem median_even_midpoint (data : List ℚ) (h0 : data.length ≠ 0)
    (he : data.length % 2 = 0) :
    median data ("midpoint") =
      some (((List.insertionSort (· ≤ ·) data).getD (data.length / 2 + 1 - 1) 0 +
        (List.insertionSort (· ≤ ·) data).getD (data.length / 2 - 1) 0) / 2) := by
  have h1 : ¬ data.length % 2 = 1 := by omega
  simp +decide [median, h0, h1]

/-- Helper: the linear-interpolation formula at the half-way query point
collapses to the midpoint. -/
theorem linear_collapse (y0 y1 c : ℚ) :
    y0 + ((c - 1 + c) / 2 - (c - 1)) * ((y1 - y0) / (c - (c - 1))) = (y1 + y0) / 2 := by
  have h : c - (c - 1) = 1 := by ring
  rw [h, div_one]
  ring

/-- C9: for every non-empty sample of even length, `median` with
interpolation `linear` returns exactly the value of `median` with
interpolation `midpoint`, namely the arithmetic mean of the two middle
elements of the sorted data (the linear-interpolation formula collapses to
the midpoint because the query index sits halfway between two adjacent
indices). -/
theorem c9_median_linear_eq_midpoint (data : List ℚ) (hne : data ≠ [])
    (heven : data.length % 2 = 0) :
    median data ("linear") = median data ("midpoint") ∧
    median data ("midpoint") =
      some (((List.insertionSort (· ≤ ·) data).getD (data.length / 2 - 1) 0 +
        (List.insertionSort (· ≤ ·) data).getD (data.length / 2) 0) / 2) := by
  have h0 : data.length ≠ 0 := fun h => hne (List.length_eq_zero.mp h)
  have h2 : 1 ≤ data.length / 2 := by omega
  have hcast : ((data.length / 2 - 1 : ℕ) : ℚ) = ((data.length / 2 : ℕ) : ℚ) - 1 := by
    push_cast [Nat.cast_sub h2]
    ring
  rw [median_even_linear data h0 heven, median_even_midpoint data h0 heven]
  rw [Nat.add_sub_cancel, hcast]
  constructor
  · exact congrArg some (linear_collapse _ _ _)
  · norm_num [add_comm]

/-- C9 witness: concrete even-length sample `[3, 1, 4, 1]`, whose sorted
form is `[1, 1, 3, 4]` with middle elements `1` and `3`. -/
theorem c9_witness :
    median [3, 1, 4, 1] ("linear") = median [3, 1, 4, 1] ("midpoint") ∧
    median [3, 1, 4, 1] ("midpoint") = some 2 := by
  have h := c9_median_linear_eq_midpoint [3, 1, 4, 1] (by simp) (by simp)
  refine ⟨h.1, ?_⟩
  rw [h.2]
  norm_num [List.insertionSort, List.orderedInsert]

/-- Helper: the mean of a non-empty constant list is that constant. -/
theorem mean_all_eq {data : List ℚ} {c : ℚ} (hne : data ≠ [])
    (hc : ∀ x ∈ data, x = c) : mean data = c := by
  have hn : (data.length : ℚ) ≠ 0 := by
    exact_mod_cast fun h => hne (List.length_eq_zero.mp (by exact_mod_cast h))
  have hsum : data.sum = data.length • c := List.sum_eq_card_nsmul data c hc
  rw [mean, hsum, nsmul_eq_mul]
  field_simp

/-- Helper: the (any-ddof) variance of a constant list is zero. -/
theorem variance_all_eq {data : List ℚ} {c : ℚ} (hc : ∀ x ∈ data, x = c)
    (ddof : ℕ) (hne : data ≠ []) : variance data ddof = 0 := by
  rw [variance]
  have : (data.map (fun x => (x - mean data) ^ 2)).sum = 0 := by
    apply List.sum_eq_zero
    intro y hy
    rcases List.mem_map.mp hy with ⟨x, hx, rfl⟩
    rw [hc x hx, mean_all_eq hne hc]
    ring
  rw [this, zero_div]

/-- Helper: `median` with interpolation `linear` of a non-empty constant
list is that constant. -/
theorem median_all_eq {data : List ℚ} {c : ℚ} (hne : data ≠ [])
    (hc : ∀ x ∈ data, x = c) : median data ("linear") = some c := by
  have h0 : data.length ≠ 0 := fun h => hne (List.length_eq_zero.mp h)
  have hs : ∀ x ∈ List.insertionSort (· ≤ ·) data, x = c := by
    intro x hx
    exact hc x ((List.mem_insertionSort _).mp hx)
  have hlen : (List.insertionSort (· ≤ ·) data).length = data.length :=
    List.length_insertionSort _ _
  rcases Nat.mod_two_eq_zero_or_one data.length with he | ho
  · rw [median_even_linear data h0 he]
    rw [getD_all_eq _ _ (by omega) hs, getD_all_eq _ _ (by omega) hs]
    norm_num
  · rw [median_odd data _ ho]
    rw [getD_all_eq _ _ (by omega) hs]

/-- C8 amended: for every non-empty constant sample, `z_score` and
`modified_z_score` raise no error at all: both return normally, with every
entry a non-finite IEEE value (`none`) produced by the division by the zero
standard deviation / zero median absolute deviation. -/
theorem c8_zero_spread_silent (data : List ℚ) (c sd : ℚ) (hne : data ≠ [])
    (hc : ∀ x ∈ data, x = c) (hsd : sd * sd = variance data 0) :
    z_score_run sd data = .ok (data.map (fun _ => none)) ∧
    modified_z_score_run data = .ok (data.map (fun _ => none)) := by
  have hsd0 : sd = 0 := by
    have := hsd.trans (variance_all_eq hc 0 hne)
    exact mul_self_eq_zero.mp this
  constructor
  · rw [z_score_run, z_score, hsd0]
    refine congrArg Except.ok (List.map_congr_left ?_)
    intro x _
    simp [qdiv0]
  · have hmed : median data ("linear") = some c := median_all_eq hne hc
    have hdev : ∀ y ∈ data.map (fun x => |x - c|), y = 0 := by
      intro y hy
      rcases List.mem_map.mp hy with ⟨x, hx, rfl⟩
      rw [hc x hx]
      simp
    have hdevne : data.map (fun x => |x - c|) ≠ [] := by
      simpa using hne
    have hmad : median (data.map (fun x => |x - c|)) ("linear") = some 0 :=
      median_all_eq hdevne hdev
    simp only [modified_z_score_run, modified_z_score, hmed, hmad]
    refine congrArg Except.ok (List.map_congr_left ?_)
    intro x _
    simp [qdiv0]

/-- C8 counterexample: on the constant sample `[1, 1]` (zero variance, zero
MAD) neither routine surfaces an error: both return `Except.ok` with
non-finite entries, refuting the claim that a `NumericDegeneracy` error is
raised. -/
theorem c8_counterexample :
    z_score_run 0 [1, 1] = .ok [none, none] ∧
    modified_z_score_run [1, 1] = .ok [none, none] := by
  constructor
  · norm_num [z_score_run, z_score, mean, qdiv0]
  · norm_num [modified_z_score_run, modified_z_score, median, qdiv0,
      List.insertionSort, List.orderedInsert]

/-- C8 witness for the amended theorem: the constant sample `[2, 2]` with
`sd = 0`. -/
theorem c8_witness :
    z_score_run 0 [2, 2] = .ok ([2, 2].map (fun _ => none)) ∧
    modified_z_score_run [2, 2] = .ok ([2, 2].map (fun _ => none)) := by
  refine c8_zero_spread_silent [2, 2] 2 0 (by simp) (by simp) ?_
  norm_num [variance, mean]

/-- C10: `outliers_from_modified_z` flags only scores exceeding
`+threshold`: an entry whose modified z-score lies below `-threshold` is
never flagged (the computed lower bound is unused), whereas
`outliers_from_z` flags exactly the entries with `z < -threshold` or
`z > threshold` (both sides). -/
theorem c10_modified_z_flags_one_sided (data : List ℚ) (sd t : ℚ) (ht : 0 ≤ t)
    (l : List (Option ℚ)) (hl : modified_z_score data = some l)
    (i : ℕ) (m : ℚ) (hm : l[i]? = some (some m)) (hmlt : m < -t)
    (j : ℕ) (z : ℚ) (hz : (z_score sd data)[j]? = some (some z)) :
    (outliers_from_modified_z t data).map (fun fl => fl[i]?) = some (some false) ∧
    (outliers_from_z sd t data)[j]? = some (decide (z < -t ∨ z > t)) := by
  constructor
  · have hmf : ¬ (m > t) := by
      intro h
      have : -t ≤ t := by linarith
      linarith
    simp [outliers_from_modified_z, hl, List.getElem?_map, hm, gtOpt, hmf]
  · simp [outliers_from_z, List.getElem?_map, hz, ltOpt, gtOpt, Bool.decide_or]

/-- C10 witness: in `[1, 2, 3, 4, 100]` the first entry has modified
z-score `-1.349 < -1` and is not flagged by `outliers_from_modified_z`,
while `outliers_from_z` (whose first z-score is `-21`) does flag it on the
low side. -/
theorem c10_witness :
    (outliers_from_modified_z 1 [1, 2, 3, 4, 100]).map (fun fl => fl[0]?) =
      some (some false) ∧
    (outliers_from_z 1 1 [1, 2, 3, 4, 100])[0]? = some true := by
  have h := c10_modified_z_flags_one_sided [1, 2, 3, 4, 100] 1 1 (by norm_num)
    [some (-1349/1000), some (-6745/10000), some 0, some (6745/10000), some (654265/10000)]
    (by norm_num [modified_z_score, median, qdiv0, List.insertionSort, List.orderedInsert])
    0 (-1349/1000) (by norm_num) (by norm_num)
    0 (-21) (by norm_num [z_score, mean, qdiv0])
  refine ⟨h.1, ?_⟩
  rw [h.2]
  norm_num

/-- C5: for every p in (0,1), the closed-form normal round-trip law
`cdf(ppf(p)) = p` holds exactly in exact arithmetic, for any nonzero value
of the shared `sqrt(2)` constant and any `erf`/`erfinv` pair satisfying the
defining inverse identity at `2p - 1`. -/
theorem c5_cdf_ppf_roundtrip (erf erfinv : ℚ → ℚ) (sqrt2 mu sigma p : ℚ)
    (hs2 : sqrt2 ≠ 0) (hsig : sigma ≠ 0) (hp0 : 0 < p) (hp1 : p < 1)
    (herf : erf (erfinv (2 * p - 1)) = 2 * p - 1) :
    cdf erf sqrt2 (ppf erfinv sqrt2 p mu sigma) mu sigma = p := by
  rw [cdf, ppf]
  have harg : (mu + sigma * sqrt2 * erfinv (2 * p - 1) - mu) / (sigma * sqrt2) =
      erfinv (2 * p - 1) := by
    field_simp
  rw [harg, herf]
  ring

/-- C5 witness: with `erf = erfinv = id`, `sqrt2 = 1`, standard parameters
and `p = 1/3`, the round trip gives back `1/3`. -/
theorem c5_witness :
    cdf (fun y => y) 1 (ppf (fun y => y) 1 (1 / 3) 0 1) 0 1 = 1 / 3 :=
  c5_cdf_ppf_roundtrip (fun y => y) (fun y => y) 1 0 1 (1 / 3)
    (by norm_num) (by norm_num) (by norm_num) (by norm_num) rfl

/-- Helper: the initial accumulator is a lower bound of `foldl max`. -/
theorem init_le_foldl_max : ∀ (l : List ℚ) (init : ℚ), init ≤ l.foldl max init := by
  intro l
  induction l with
  | nil => intro init; simp
  | cons b t ih => intro init; exact le_trans (le_max_left init b) (ih (max init b))

/-- Helper: every member of a list is bounded by its `foldl max`. -/
theorem le_foldl_max : ∀ (l : List ℚ) (init a : ℚ), a ∈ l → a ≤ l.foldl max init := by
  intro l
  induction l with
  | nil => intro _ a ha; simp at ha
  | cons b t ih =>
    intro init a ha
    rcases List.mem_cons.mp ha with rfl | ht
    · exact le_trans (le_max_right init a) (init_le_foldl_max t (max init a))
    · exact ih (max init b) a ht

/-- C6: the `max(diffs) == 0` test at stats.py line 271 is `true` only when
every table probability equals the query.  Whenever the query probability
is an exact table entry but some other (distinct) entry exists — which is
the case for every exact match against the real 7000-entry strictly
increasing table — the short-circuit branch is NOT taken and the
interpolation division executes, contradicting the claim; the intended
check was `min(diffs) == 0`. -/
theorem c6_exact_match_branch_dead (prob_values : List ℚ) (given_prob q2 : ℚ)
    (hmem : given_prob ∈ prob_values) (h2 : q2 ∈ prob_values)
    (hne : q2 ≠ given_prob) :
    z_score_lookup_exact_branch prob_values given_prob = false := by
  have hq2 : |q2 - given_prob| ∈ lookup_diffs prob_values given_prob :=
    List.mem_map.mpr ⟨q2, h2, rfl⟩
  have hpos : 0 < |q2 - given_prob| := abs_pos.mpr (sub_ne_zero.mpr hne)
  have hle : |q2 - given_prob| ≤ maxQ (lookup_diffs prob_values given_prob) :=
    le_foldl_max _ 0 _ hq2
  have hmax : ¬ (maxQ (lookup_diffs prob_values given_prob) = 0) := by
    intro h
    rw [h] at hle
    linarith
  rw [z_score_lookup_exact_branch]
  exact decide_eq_false hmax

/-- C6 witness: the query `1/2` is itself a table entry of the three-entry
table `[1/5, 1/2, 4/5]`, yet the short-circuit branch is not taken. -/
theorem c6_witness :
    z_score_lookup_exact_branch [1 / 5, 1 / 2, 4 / 5] (1 / 2) = false :=
  c6_exact_match_branch_dead [1 / 5, 1 / 2, 4 / 5] (1 / 2) (1 / 5)
    (by norm_num) (by norm_num) (by norm_num)

/-- C1 counterexample: with quantile function `id` (any strictly monotone
quantile separates `α` from `1-α`) and `α = 1/4`, a lower-tail `z_test`
returns `lookup(1 - α) = 3/4` as its critical value, not the quantile at
`α = 1/4` the claim requires. -/
theorem c1_counterexample :
    (z_test (fun q => q) 52 50 10 1 (1 / 4) ("lower-tail")).2 = .ok (1 / 5, 3 / 4) ∧
    (3 / 4 : ℚ) ≠ (1 / 4 : ℚ) := by
  constructor
  · simp +decide only [z_test]
    norm_num
  · norm_num

/-- C1 amended: `two_sample_z_test` follows the claimed convention — its
lower-tail critical value `-icdf(1-α)` equals `icdf(α)` by the symmetry of
the standard-normal quantile, and its upper-tail critical value is
`icdf(1-α)` — while `z_test` and `one_proportion` return the swapped
values: `lookup(1-α)` for lower-tail (used against its negation in the
decision) and `lookup(α)` for upper-tail. -/
theorem c1_critical_values (lookup icdf : ℚ → ℚ)
    (hsymm : ∀ q, icdf (1 - q) = -(icdf q))
    (x_bar mu sigma sqrt_n p p0 sqrt_term x1_bar x2_bar se_term alpha : ℚ) :
    (z_test lookup x_bar mu sigma sqrt_n alpha ("lower-tail")).2 =
      .ok ((x_bar - mu) / (sigma / sqrt_n), lookup (1 - alpha)) ∧
    (z_test lookup x_bar mu sigma sqrt_n alpha ("upper-tail")).2 =
      .ok ((x_bar - mu) / (sigma / sqrt_n), lookup alpha) ∧
    (one_proportion lookup p p0 sqrt_term alpha ("lower-tail")).2 =
      .ok ((p - p0) / sqrt_term, lookup (1 - alpha)) ∧
    (one_proportion lookup p p0 sqrt_term alpha ("upper-tail")).2 =
      .ok ((p - p0) / sqrt_term, lookup alpha) ∧
    (two_sample_z_test icdf x1_bar x2_bar se_term alpha ("lower-tail")).2 =
      .ok ((x1_bar - x2_bar) / se_term, icdf alpha) ∧
    (two_sample_z_test icdf x1_bar x2_bar se_term alpha ("upper-tail")).2 =
      .ok ((x1_bar - x2_bar) / se_term, icdf (1 - alpha)) := by
  refine ⟨?_, ?_, ?_, ?_, ?_, ?_⟩ <;>
    simp +decide [z_test, one_proportion, two_sample_z_test, hsymm]

/-- C1 witness: concrete quantile functions (`id`, and `q - 1/2`, which
satisfies the standard-normal symmetry law) at `α = 1/4`. -/
theorem c1_witness :
    (z_test (fun q => q) 52 50 10 1 (1 / 4) ("lower-tail")).2 = .ok (1 / 5, 3 / 4) ∧
    (z_test (fun q => q) 52 50 10 1 (1 / 4) ("upper-tail")).2 = .ok (1 / 5, 1 / 4) ∧
    (one_proportion (fun q => q) 1 1 1 (1 / 4) ("lower-tail")).2 = .ok (0, 3 / 4) ∧
    (one_proportion (fun q => q) 1 1 1 (1 / 4) ("upper-tail")).2 = .ok (0, 1 / 4) ∧
    (two_sample_z_test (fun q => q - 1 / 2) 1 0 1 (1 / 4) ("lower-tail")).2 =
      .ok (1, -(1 / 4)) ∧
    (two_sample_z_test (fun q => q - 1 / 2) 1 0 1 (1 / 4) ("upper-tail")).2 =
      .ok (1, 1 / 4) := by
  have h := c1_critical_values (fun q => q) (fun q => q - 1 / 2)
    (by intro q; ring) 52 50 10 1 1 1 1 1 0 1 (1 / 4)
  norm_num at h ⊢
  exact h

/-- C2 counterexample: an invalid `test_type` does make `z_test` and
`t_test` fail, but only after the test statistic (here `1/5`) has been
computed (and printed) — refuting the claim that no statistic value is
produced before the failure. -/
theorem c2_counterexample :
    z_test (fun q => q) 52 50 10 1 (1 / 20) ("bad") =
      (some (1 / 5), .error errTestType) ∧
    t_test (fun _ _ => 0) 52 50 10 1 30 (1 / 20) ("bad") =
      (some (1 / 5), .error errTestType) := by
  constructor <;>
    · simp +decide only [z_test, t_test]
      norm_num

/-- C2 amended: for every `test_type` outside
`{lower-tail, upper-tail, two-tail}` every test routine raises the
`ValueError` (the `InvalidParameter` of the spec) — but each routine computes
its test statistic unconditionally before the dispatch, so a statistic
value is produced (and printed) before the failure. -/
theorem c2_invalid_test_type (lookup icdf : ℚ → ℚ) (tcdf chicdf : ℚ → ℚ → ℚ)
    (fcdf : ℚ → ℕ → ℕ → ℚ)
    (x_bar mu sigma sqrt_n s n alpha p p0 sqrt_term x1_bar x2_bar se_term : ℚ)
    (sample_1 sample_2 : List ℚ) (test_type : String)
    (h1 : test_type ≠ "lower-tail") (h2 : test_type ≠ "upper-tail")
    (h3 : test_type ≠ "two-tail") :
    z_test lookup x_bar mu sigma sqrt_n alpha test_type =
      (some ((x_bar - mu) / (sigma / sqrt_n)), .error errTestType) ∧
    t_test tcdf x_bar mu s sqrt_n n alpha test_type =
      (some ((x_bar - mu) / (s / sqrt_n)), .error errTestType) ∧
    one_proportion lookup p p0 sqrt_term alpha test_type =
      (some ((p - p0) / sqrt_term), .error errTestType) ∧
    two_sample_z_test icdf x1_bar x2_bar se_term alpha test_type =
      (some ((x1_bar - x2_bar) / se_term), .error errTestType) ∧
    chi_square_test chicdf s sigma n alpha test_type =
      (some ((n - 1) * s ^ 2 / sigma ^ 2), .error errTestType) ∧
    F_test fcdf sample_1 sample_2 alpha test_type =
      (some (F_orient (variance sample_1 1) (variance sample_2 1)
        (sample_1.length - 1) (sample_2.length - 1)).1, .error errTestType) := by
  refine ⟨?_, ?_, ?_, ?_, ?_, ?_⟩ <;>
    simp [z_test, t_test, one_proportion, two_sample_z_test, chi_square_test,
      F_test, h1, h2, h3]

/-- C2 witness: the unknown test type `"both"` on concrete inputs. -/
theorem c2_witness :
    z_test (fun q => q) 52 50 10 1 (1 / 20) ("both") =
      (some (1 / 5), .error errTestType) ∧
    t_test (fun _ _ => 0) 52 50 1 1 2 (1 / 20) ("both") =
      (some 2, .error errTestType) ∧
    one_proportion (fun q => q) 1 1 1 (1 / 20) ("both") =
      (some 0, .error errTestType) ∧
    two_sample_z_test (fun q => q) 1 0 1 (1 / 20) ("both") =
      (some 1, .error errTestType) ∧
    chi_square_test (fun _ _ => 0) 1 10 2 (1 / 20) ("both") =
      (some (1 / 100), .error errTestType) ∧
    F_test (fun _ _ _ => 0) [1, 2] [3, 5, 7] (1 / 20) ("both") =
      (some 8, .error errTestType) := by
  have h := c2_invalid_test_type (fun q => q) (fun q => q) (fun _ _ => 0) (fun _ _ => 0)
    (fun _ _ _ => 0) 52 50 10 1 1 2 (1 / 20) 1 1 1 1 0 1 [1, 2] [3, 5, 7] ("both")
    (by decide) (by decide) (by decide)
  norm_num [variance, mean, F_orient] at h ⊢
  exact h

/-- C3 counterexample: the t two-tail p-value `2*(1 - t_cdf(|t|))` has no
clamp, so as soon as the quadrature CDF value at `|t|` falls below `1/2`
the returned p-value exceeds `1`.  (For `t = 0` and `df = 1` the actual
integrator value is `1/2` minus the omitted Cauchy tail mass below `-13000`
(about `2.45e-5`), so a CDF value of `0.49999` is representative of a real
execution.)  Here the routine returns the p-value `50001/50000 > 1`. -/
theorem c3_counterexample :
    (t_test (fun x k => 49999 / 100000) 0 0 1 1 2 (1 / 20) ("two-tail")).2 =
      .ok (0, 50001 / 50000) ∧
    (1 : ℚ) < 50001 / 50000 := by
  constructor
  · simp +decide only [t_test]
    norm_num
  · norm_num

/-- C3 amended: every two-tail p-value follows the claimed formula —
`2*(1 - CDF(|t|))` for the t test and `2*min(CDF, 1-CDF)` for the
chi-square and F tests.  The chi-square/F values never exceed `1`
unconditionally, and are in `[0,1]` whenever the CDF value is; the t value
is in `[0,1]` exactly when the computed CDF of `|t|` lies in `[1/2, 1]`
(which the unclamped code does not enforce). -/
theorem c3_two_tail_p_values (tcdf chicdf : ℚ → ℚ → ℚ) (fcdf : ℚ → ℕ → ℕ → ℚ)
    (x_bar mu s sqrt_n n alpha sigma : ℚ) (sample_1 sample_2 : List ℚ)
    (Ct Cc Cf : ℚ)
    (hCt : Ct = tcdf |(x_bar - mu) / (s / sqrt_n)| (n - 1))
    (hCc : Cc = chicdf ((n - 1) * s ^ 2 / sigma ^ 2) (n - 1))
    (hCf : Cf = fcdf
      (F_orient (variance sample_1 1) (variance sample_2 1)
        (sample_1.length - 1) (sample_2.length - 1)).1
      (F_orient (variance sample_1 1) (variance sample_2 1)
        (sample_1.length - 1) (sample_2.length - 1)).2.1
      (F_orient (variance sample_1 1) (variance sample_2 1)
        (sample_1.length - 1) (sample_2.length - 1)).2.2)
    (hct1 : 1 / 2 ≤ Ct) (hct2 : Ct ≤ 1) (hcc1 : 0 ≤ Cc) (hcc2 : Cc ≤ 1)
    (hcf1 : 0 ≤ Cf) (hcf2 : Cf ≤ 1) :
    ((t_test tcdf x_bar mu s sqrt_n n alpha ("two-tail")).2 =
      .ok ((x_bar - mu) / (s / sqrt_n), 2 * (1 - Ct)) ∧
    0 ≤ 2 * (1 - Ct) ∧ 2 * (1 - Ct) ≤ 1) ∧
    ((chi_square_test chicdf s sigma n alpha ("two-tail")).2 =
      .ok ((n - 1) * s ^ 2 / sigma ^ 2, 2 * min Cc (1 - Cc)) ∧
    2 * min Cc (1 - Cc) ≤ 1 ∧ 0 ≤ 2 * min Cc (1 - Cc)) ∧
    ((F_test fcdf sample_1 sample_2 alpha ("two-tail")).2 =
      .ok ((F_orient (variance sample_1 1) (variance sample_2 1)
          (sample_1.length - 1) (sample_2.length - 1)).1,
        2 * min Cf (1 - Cf)) ∧
    2 * min Cf (1 - Cf) ≤ 1 ∧ 0 ≤ 2 * min Cf (1 - Cf)) := by
  refine ⟨⟨?_, ?_, ?_⟩, ⟨?_, ?_, ?_⟩, ⟨?_, ?_, ?_⟩⟩
  · rw [hCt]
    simp +decide [t_test]
  · linarith
  · linarith
  · rw [hCc]
    simp +decide [chi_square_test]
  · rcases le_total Cc (1 - Cc) with h | h
    · rw [min_eq_left h]; linarith
    · rw [min_eq_right h]; linarith
  · rcases le_total Cc (1 - Cc) with h | h
    · rw [min_eq_left h]; linarith
    · rw [min_eq_right h]; linarith
  · rw [hCf]
    simp +decide [F_test]
  · rcases le_total Cf (1 - Cf) with h | h
    · rw [min_eq_left h]; linarith
    · rw [min_eq_right h]; linarith
  · rcases le_total Cf (1 - Cf) with h | h
    · rw [min_eq_left h]; linarith
    · rw [min_eq_right h]; linarith

/-- C3 witness: constant CDF stand-ins `3/4` (t) and `1/3` (chi-square, F)
on concrete inputs; the three two-tail p-values are `1/2`, `2/3` and `2/3`,
all inside `[0,1]`. -/
theorem c3_witness :
    ((t_test (fun x k => (3 / 4 : ℚ)) 0 0 1 1 2 (1 / 20) ("two-tail")).2 =
      .ok (0, 1 / 2) ∧
    (0 : ℚ) ≤ 1 / 2 ∧ (1 / 2 : ℚ) ≤ 1) ∧
    ((chi_square_test (fun x k => (1 / 3 : ℚ)) 1 1 2 (1 / 20) ("two-tail")).2 =
      .ok (1, 2 / 3) ∧
    (2 / 3 : ℚ) ≤ 1 ∧ (0 : ℚ) ≤ 2 / 3) ∧
    ((F_test (fun f a b => (1 / 3 : ℚ)) [1, 2] [3, 5, 7] (1 / 20) ("two-tail")).2 =
      .ok (8, 2 / 3) ∧
    (2 / 3 : ℚ) ≤ 1 ∧ (0 : ℚ) ≤ 2 / 3) := by
  have h := c3_two_tail_p_values (fun x k => (3 / 4 : ℚ)) (fun x k => (1 / 3 : ℚ))
    (fun f a b => (1 / 3 : ℚ)) 0 0 1 1 2 (1 / 20) 1 [1, 2] [3, 5, 7]
    (3 / 4) (1 / 3) (1 / 3) rfl rfl rfl
    (by norm_num) (by norm_num) (by norm_num) (by norm_num) (by norm_num) (by norm_num)
  norm_num [variance, mean, F_orient] at h ⊢
  exact h

/-- C4: the F statistic is the larger sample variance over the smaller
(hence at least 1 for non-degenerate samples), and when the variance of the
second sample is larger the degrees of freedom are swapped so the numerator
degrees of freedom follow the numerator variance. -/
theorem c4_F_orientation (fcdf : ℚ → ℕ → ℕ → ℚ) (sample_1 sample_2 : List ℚ)
    (alpha : ℚ) (test_type : String)
    (hv1 : 0 < variance sample_1 1) (hv2 : 0 < variance sample_2 1) :
    (F_test fcdf sample_1 sample_2 alpha test_type).1 =
      some (max (variance sample_1 1) (variance sample_2 1) /
        min (variance sample_1 1) (variance sample_2 1)) ∧
    1 ≤ max (variance sample_1 1) (variance sample_2 1) /
        min (variance sample_1 1) (variance sample_2 1) ∧
    (variance sample_1 1 < variance sample_2 1 →
      F_orient (variance sample_1 1) (variance sample_2 1)
        (sample_1.length - 1) (sample_2.length - 1) =
        (variance sample_2 1 / variance sample_1 1,
          sample_2.length - 1, sample_1.length - 1)) := by
  set v1 := variance sample_1 1 with hv1e
  set v2 := variance sample_2 1 with hv2e
  refine ⟨?_, ?_, ?_⟩
  · show some (F_orient v1 v2 _ _).1 = _
    by_cases h : v1 > v2
    · rw [F_orient, if_pos h, max_eq_left h.le, min_eq_right h.le]
    · push_neg at h
      rw [F_orient, if_neg (not_lt.mpr h), max_eq_right h, min_eq_left h]
  · have hmin : 0 < min v1 v2 := lt_min hv1 hv2
    exact (one_le_div hmin).mpr (min_le_max)
  · intro h
    rw [F_orient, if_neg (lt_asymm h)]

/-- C4 witness: samples `[1,2]` (variance `1/2`) and `[3,5,7]` (variance
`4`): the statistic is `4 / (1/2) = 8 ≥ 1` and the degrees of freedom are
swapped to `(2, 1)`. -/
theorem c4_witness :
    (F_test (fun f a b => (1 / 3 : ℚ)) [1, 2] [3, 5, 7] (1 / 20) ("two-tail")).1 =
      some 8 ∧
    (1 : ℚ) ≤ 8 ∧
    F_orient (1 / 2) 4 1 2 = (8, 2, 1) := by
  have hvA : variance [(1 : ℚ), 2] 1 = 1 / 2 := by norm_num [variance, mean]
  have hvB : variance [(3 : ℚ), 5, 7] 1 = 4 := by norm_num [variance, mean]
  have h := c4_F_orientation (fun f a b => (1 / 3 : ℚ)) [1, 2] [3, 5, 7] (1 / 20)
    ("two-tail") (by rw [hvA]; norm_num) (by rw [hvB]; norm_num)
  refine ⟨?_, by norm_num, ?_⟩
  · have h1 := h.1
    rw [hvA, hvB, max_eq_right (by norm_num : (1 / 2 : ℚ) ≤ 4),
      min_eq_left (by norm_num : (1 / 2 : ℚ) ≤ 4)] at h1
    rw [h1]
    norm_num
  · have h3 := h.2.2 (by rw [hvA, hvB]; norm_num)
    rw [hvA, hvB] at h3
    norm_num at h3
    rw [h3]

/-- Helper: the tent density is non-negative everywhere. -/
theorem tent_nonneg (x : ℚ) : 0 ≤ tent x := by
  rw [tent]
  split <;> exact le_max_left 0 _

/-- Helper: a trapezoidal sum over a grid whose endpoints coincide is 0:
all grid points are equal, so every trapezoid has zero width. -/
theorem trapzGrid_same (f : ℚ → ℚ) (lo shift : ℚ) (n : ℕ) :
    trapzGrid f lo lo shift n = 0 := by
  rw [trapzGrid]
  apply Finset.sum_eq_zero
  intro i _
  have h : gridPoint lo lo shift n (i + 1) - gridPoint lo lo shift n i = 0 := by
    rw [gridPoint, gridPoint]
    ring
  rw [h, mul_zero]

/-- Helper: the trapezoidal sum of a non-negative integrand over an
ascending grid is non-negative. -/
theorem trapzGrid_nonneg (f : ℚ → ℚ) (lo hi shift : ℚ) (n : ℕ)
    (hf : ∀ x, 0 ≤ f x) (hle : lo ≤ hi) : 0 ≤ trapzGrid f lo hi shift n := by
  rw [trapzGrid]
  apply Finset.sum_nonneg
  intro i hmem
  have hn : 2 ≤ n := by
    have := Finset.mem_range.mp hmem
    omega
  have hnq : (0 : ℚ) ≤ (n : ℚ) - 1 := by
    have : (2 : ℚ) ≤ (n : ℚ) := by exact_mod_cast hn
    linarith
  have hstep : gridPoint lo hi shift n (i + 1) - gridPoint lo hi shift n i =
      (hi - lo) / ((n : ℚ) - 1) := by
    rw [gridPoint, gridPoint]
    push_cast
    ring
  rw [hstep]
  apply mul_nonneg
  · have h1 := hf (gridPoint lo hi shift n i)
    have h2 := hf (gridPoint lo hi shift n (i + 1))
    linarith
  · exact div_nonneg (by linarith) hnq

/-- C7 counterexample: the fixed-point-count trapezoidal CDF is not
monotone in its upper query bound even for a continuous non-negative
probability density: with the triangular density, `F_cdf` at upper bound
`2` is strictly below `F_cdf` at upper bound `1` on the same 2-point grid,
because widening the range moves the interior sample points off the peak. -/
theorem c7_counterexample : F_cdf tent 2 1 < F_cdf tent 1 1 := by
  norm_num [F_cdf, trapzGrid, gridPoint, tent, Finset.sum_range_succ, max_def]

/-- C7 amended: the integrator returns 0 whenever the upper bound equals
the lower bound — in particular `t_cdf` at `-13000`, `chi_cdf` at `0.3e-6`
and `F_cdf` at `0` are all 0 — and for a non-negative density its value at
any upper bound ≥ the lower bound is ≥ 0 (that is, ≥ its value at the
lower bound); full monotonicity in the upper bound does not hold. -/
theorem c7_integrator_amended (f : ℚ → ℚ) (lo hi shift : ℚ) (n num_points : ℕ)
    (hf : ∀ x, 0 ≤ f x) (hle : lo ≤ hi) :
    trapzGrid f lo lo shift n = 0 ∧
    0 ≤ trapzGrid f lo hi shift n ∧
    t_cdf f (-13000) num_points = 0 ∧
    chi_cdf f (3 / 10000000) = 0 ∧
    F_cdf f 0 num_points = 0 :=
  ⟨trapzGrid_same f lo shift n,
   trapzGrid_nonneg f lo hi shift n hf hle,
   trapzGrid_same f (-13000) 0 num_points,
   trapzGrid_same f (3 / 10000000) (1 / 10000000000) 40000000,
   trapzGrid_same f 0 (1 / 10000000) (num_points + 1)⟩

/-- C7 witness: the constant density 1 on the grid `[0, 1]` with 3 points. -/
theorem c7_witness :
    trapzGrid (fun x => (1 : ℚ)) 0 0 0 3 = 0 ∧
    0 ≤ trapzGrid (fun x => (1 : ℚ)) 0 1 0 3 ∧
    t_cdf (fun x => (1 : ℚ)) (-13000) 5 = 0 ∧
    chi_cdf (fun x => (1 : ℚ)) (3 / 10000000) = 0 ∧
    F_cdf (fun x => (1 : ℚ)) 0 5 = 0 :=
  c7_integrator_amended (fun x => (1 : ℚ)) 0 1 0 3 5 (fun x => zero_le_one)
    (by norm_num)

end SciModelStats
